import Mathlib

/-!
Verification of the Icarus-Copilot coverage core: a shallow embedding of
`src/tools/coverage_calculator.py` (the Coverage Planner) and of
`src/agents/ros_config_agent.py` (the Geodetic Projector), with theorems
settling the specification's claims about them.

Numbers are modelled as real numbers.  Python's `round(x, n)` is modelled as
round-half-up at `n` decimal digits (`roundTo`); every concrete input used in
a theorem below is kept away from exact `.5` ties, where Python's
round-half-to-even and this model agree.  Python's `ZeroDivisionError` is
modelled by returning an `Except` error at the one place the source can
divide by zero (`generate_ros_waypoints`).
-/

namespace Icarus

/-- Sweep orientation of the lawnmower pattern, the two string values
`"along_length"` / `"along_width"` of the source. -/
inductive SweepDirection
  | along_length
  | along_width
  deriving DecidableEq

/-- The `"area"` sub-dictionary of a mission spec; absent keys are `none`. -/
structure Area where
  length_m : Option ℝ
  width_m : Option ℝ

/-- The `"overlap"` sub-dictionary of a mission spec; absent keys are `none`. -/
structure Overlap where
  frontlap_percent : Option ℝ
  sidelap_percent : Option ℝ

/-- The mission-spec dictionary consumed by `compute_coverage`; each field is
`none` when the corresponding key is absent, matching the `dict.get` calls of
the source. -/
structure MissionSpec where
  area : Option Area
  altitude_m : Option ℝ
  camera_fov_deg : Option ℝ
  overlap : Option Overlap

/-- One leg dictionary of the planner output
(`src/tools/coverage_calculator.py` lines 96-104). -/
structure Leg where
  leg_id : ℤ
  x_start_m : ℝ
  y_start_m : ℝ
  x_end_m : ℝ
  y_end_m : ℝ

/-- The `coverage_summary` dictionary of the planner output
(`src/tools/coverage_calculator.py` lines 106-116). -/
structure CoverageSummary where
  sweep_direction : SweepDirection
  swath_width_m : ℝ
  leg_spacing_m : ℝ
  num_legs : ℤ
  leg_length_m : ℝ
  total_path_length_m : ℝ
  cruise_speed_mps : ℝ
  total_flight_time_min : ℝ
  num_battery_segments : ℤ

/-- The full return value of `compute_coverage`. -/
structure CoverageResult where
  coverage_summary : CoverageSummary
  legs : List Leg

/-- Python's `math.radians`: degrees to radians. -/
noncomputable def radians (deg : ℝ) : ℝ := deg * Real.pi / 180

/-- Python's `round(x, ndigits)` on exact reals: round half up at `ndigits`
decimal places.  (CPython rounds half to even; the two agree away from exact
ties, and every concrete value appearing below is away from a tie.) -/
noncomputable def roundTo (ndigits : ℕ) (x : ℝ) : ℝ :=
  ((round (x * 10 ^ ndigits) : ℤ) : ℝ) / 10 ^ ndigits

/-- Extraction `length_m = float(area.get("length_m", 0.0))` with
`area = mission_spec.get("area", {})` (source lines 27-29). -/
def specLength (s : MissionSpec) : ℝ := ((s.area.getD ⟨none, none⟩).length_m.getD 0)

/-- Extraction `width_m = float(area.get("width_m", 0.0))` (source line 30). -/
def specWidth (s : MissionSpec) : ℝ := ((s.area.getD ⟨none, none⟩).width_m.getD 0)

/-- Extraction `altitude_m = float(mission_spec.get("altitude_m", 50.0))`
(source line 32). -/
def specAltitude (s : MissionSpec) : ℝ := s.altitude_m.getD 50

/-- Extraction `fov_deg = float(mission_spec.get("camera_fov_deg", 78.0))`
(source line 33). -/
def specFov (s : MissionSpec) : ℝ := s.camera_fov_deg.getD 78

/-- Extraction `frontlap_percent = float(overlap.get("frontlap_percent", 75.0))`
(source lines 35-36); accepted but unused by the geometry, as in the source. -/
def specFrontlap (s : MissionSpec) : ℝ := (s.overlap.getD ⟨none, none⟩).frontlap_percent.getD 75

/-- Extraction `sidelap_percent = float(overlap.get("sidelap_percent", 65.0))`
(source lines 35, 37). -/
def specSidelap (s : MissionSpec) : ℝ := (s.overlap.getD ⟨none, none⟩).sidelap_percent.getD 65

/-- Source line 42: `swath_width_m = 2 * altitude_m * math.tan(fov_rad / 2)`
with `fov_rad = math.radians(fov_deg)` (line 41). -/
noncomputable def swathWidth (altitude_m fov_deg : ℝ) : ℝ :=
  2 * altitude_m * Real.tan (radians fov_deg / 2)

/-- Source lines 45-46: `leg_spacing_m = swath_width_m * (1.0 - sidelap_fraction)`
with `sidelap_fraction = sidelap_percent / 100.0`. -/
noncomputable def legSpacing (swath_width_m sidelap_percent : ℝ) : ℝ :=
  swath_width_m * (1 - sidelap_percent / 100)

/-- Shallow embedding of `compute_coverage`
(`src/tools/coverage_calculator.py`), line for line; the four parallel `if`
expressions on `path_length_along_length ≤ path_length_along_width` embed the
single Python `if/else` that assigns the four selection variables at once. -/
noncomputable def computeCoverage (mission_spec : MissionSpec)
    (cruise_speed_mps : ℝ := 8) (max_flight_time_min : ℝ := 20) : CoverageResult :=
  let length_m := specLength mission_spec
  let width_m := specWidth mission_spec
  let altitude_m := specAltitude mission_spec
  let fov_deg := specFov mission_spec
  let sidelap_percent := specSidelap mission_spec
  let swath_width_m := swathWidth altitude_m fov_deg
  let leg_spacing_m := legSpacing swath_width_m sidelap_percent
  let num_legs_along_length : ℤ := if leg_spacing_m > 0 then ⌈width_m / leg_spacing_m⌉ else 1
  let path_length_along_length : ℝ := (num_legs_along_length : ℝ) * length_m
  let num_legs_along_width : ℤ := if leg_spacing_m > 0 then ⌈length_m / leg_spacing_m⌉ else 1
  let path_length_along_width : ℝ := (num_legs_along_width : ℝ) * width_m
  let sweep_direction :=
    if path_length_along_length ≤ path_length_along_width then SweepDirection.along_length
    else SweepDirection.along_width
  let num_legs : ℤ :=
    if path_length_along_length ≤ path_length_along_width then num_legs_along_length
    else num_legs_along_width
  let leg_length_m :=
    if path_length_along_length ≤ path_length_along_width then length_m else width_m
  let field_span_m :=
    if path_length_along_length ≤ path_length_along_width then width_m else length_m
  let leg_spacing_m := if num_legs > 1 then field_span_m / ((num_legs : ℝ) - 1) else 0
  let total_path_length_m : ℝ := (num_legs : ℝ) * leg_length_m
  let total_flight_time_min := total_path_length_m / cruise_speed_mps / 60
  let num_battery_segments : ℤ := max 1 ⌈total_flight_time_min / max_flight_time_min⌉
  let legs : List Leg := (List.range num_legs.toNat).map fun (i : ℕ) =>
    let leg_id : ℤ := (i : ℤ) + 1
    let offset : ℝ := (i : ℝ) * leg_spacing_m
    if sweep_direction = SweepDirection.along_length then
      if i % 2 = 0 then
        { leg_id := leg_id, x_start_m := roundTo 3 0, y_start_m := roundTo 3 offset,
          x_end_m := roundTo 3 leg_length_m, y_end_m := roundTo 3 offset }
      else
        { leg_id := leg_id, x_start_m := roundTo 3 leg_length_m, y_start_m := roundTo 3 offset,
          x_end_m := roundTo 3 0, y_end_m := roundTo 3 offset }
    else
      if i % 2 = 0 then
        { leg_id := leg_id, x_start_m := roundTo 3 offset, y_start_m := roundTo 3 0,
          x_end_m := roundTo 3 offset, y_end_m := roundTo 3 leg_length_m }
      else
        { leg_id := leg_id, x_start_m := roundTo 3 offset, y_start_m := roundTo 3 leg_length_m,
          x_end_m := roundTo 3 offset, y_end_m := roundTo 3 0 }
  { coverage_summary :=
      { sweep_direction := sweep_direction
        swath_width_m := roundTo 3 swath_width_m
        leg_spacing_m := roundTo 3 leg_spacing_m
        num_legs := num_legs
        leg_length_m := roundTo 3 leg_length_m
        total_path_length_m := roundTo 3 total_path_length_m
        cruise_speed_mps := cruise_speed_mps
        total_flight_time_min := roundTo 2 total_flight_time_min
        num_battery_segments := num_battery_segments }
    legs := legs }

/-- The error a Python division by zero raises; `generate_ros_waypoints` is the
one place in the embedded core where a divisor can be zero. -/
inductive PyError
  | zeroDivisionError
  deriving DecidableEq

/-- One waypoint dictionary of `generate_ros_waypoints`
(`src/agents/ros_config_agent.py` lines 44-64). -/
structure Waypoint where
  id : ℕ
  type : String
  latitude : ℝ
  longitude : ℝ
  altitude : ℝ
  leg_id : ℤ
  position : String

/-- The two waypoints one iteration of the `for leg in legs` loop appends, when
the list already holds `n` waypoints: the start waypoint gets `id = n + 1`
(`len(waypoints) + 1` before the first append) and the end waypoint
`id = n + 2` (`len(waypoints) + 1` after it). -/
def legWaypoints (meters_to_lat meters_to_lon origin_lat origin_lon altitude : ℝ)
    (leg : Leg) (n : ℕ) : List Waypoint :=
  [{ id := n + 1, type := "waypoint",
     latitude := origin_lat + leg.y_start_m * meters_to_lat,
     longitude := origin_lon + leg.x_start_m * meters_to_lon,
     altitude := altitude, leg_id := leg.leg_id, position := "start" },
   { id := n + 2, type := "waypoint",
     latitude := origin_lat + leg.y_end_m * meters_to_lat,
     longitude := origin_lon + leg.x_end_m * meters_to_lon,
     altitude := altitude, leg_id := leg.leg_id, position := "end" }]

/-- The `for leg in legs` loop of `generate_ros_waypoints`, accumulating into
`waypoints` exactly as the source does. -/
def rosLoop (meters_to_lat meters_to_lon origin_lat origin_lon altitude : ℝ) :
    List Leg → List Waypoint → List Waypoint
  | [], waypoints => waypoints
  | leg :: rest, waypoints =>
      rosLoop meters_to_lat meters_to_lon origin_lat origin_lon altitude rest
        (waypoints ++
          legWaypoints meters_to_lat meters_to_lon origin_lat origin_lon altitude leg
            waypoints.length)

/-- Shallow embedding of `generate_ros_waypoints`
(`src/agents/ros_config_agent.py` lines 15-66).  The source computes
`meters_to_lon = 1.0 / (111320.0 * abs(origin_lat / 90.0))` unconditionally;
in Python that raises `ZeroDivisionError` when the denominator is zero, which
the embedding models by the `Except` error branch. -/
noncomputable def generate_ros_waypoints (coverage_plan : CoverageResult)
    (mission_spec : MissionSpec) (origin_lat : ℝ := 28.6139)
    (origin_lon : ℝ := 77.2090) : Except PyError (List Waypoint) :=
  let legs := coverage_plan.legs
  let altitude := mission_spec.altitude_m.getD 50
  let meters_to_lat : ℝ := 1 / 111320
  if 111320 * |origin_lat / 90| = 0 then Except.error PyError.zeroDivisionError
  else
    let meters_to_lon : ℝ := 1 / (111320 * |origin_lat / 90|)
    Except.ok (rosLoop meters_to_lat meters_to_lon origin_lat origin_lon altitude legs [])

/-! ### Helper lemmas on rounding and on the waypoint loop -/

theorem roundTo_zero (d : ℕ) : roundTo d (0 : ℝ) = 0 := by
  simp [roundTo]

theorem roundTo_mono (d : ℕ) {x y : ℝ} (h : x ≤ y) : roundTo d x ≤ roundTo d y := by
  have hp : (0 : ℝ) < 10 ^ d := by positivity
  have hm : x * 10 ^ d ≤ y * 10 ^ d := mul_le_mul_of_nonneg_right h hp.le
  have hr : round (x * 10 ^ d) ≤ round (y * 10 ^ d) := by
    rw [round_eq, round_eq]
    exact Int.floor_mono (add_le_add_right hm _)
  unfold roundTo
  exact (div_le_div_iff_of_pos_right hp).mpr (by exact_mod_cast hr)

theorem roundTo_eq (d : ℕ) (x : ℝ) (z : ℤ) (h1 : (z : ℝ) ≤ x * 10 ^ d + 1 / 2)
    (h2 : x * 10 ^ d + 1 / 2 < (z : ℝ) + 1) : roundTo d x = (z : ℝ) / 10 ^ d := by
  unfold roundTo
  rw [round_eq, Int.floor_eq_iff.mpr ⟨h1, h2⟩]

/-- The waypoints the projector loop emits for `legs` when `n` waypoints
already precede them; only used to reason about `rosLoop`. -/
def wpsFrom (meters_to_lat meters_to_lon origin_lat origin_lon altitude : ℝ)
    (n : ℕ) : List Leg → List Waypoint
  | [] => []
  | leg :: rest =>
      legWaypoints meters_to_lat meters_to_lon origin_lat origin_lon altitude leg n ++
        wpsFrom meters_to_lat meters_to_lon origin_lat origin_lon altitude (n + 2) rest

theorem rosLoop_eq (p1 p2 p3 p4 p5 : ℝ) (legs : List Leg) (ws : List Waypoint) :
    rosLoop p1 p2 p3 p4 p5 legs ws = ws ++ wpsFrom p1 p2 p3 p4 p5 ws.length legs := by
  induction legs generalizing ws with
  | nil => simp [rosLoop, wpsFrom]
  | cons leg rest ih =>
    rw [rosLoop, ih, wpsFrom]
    simp [legWaypoints]

theorem wpsFrom_length (p1 p2 p3 p4 p5 : ℝ) (n : ℕ) (legs : List Leg) :
    (wpsFrom p1 p2 p3 p4 p5 n legs).length = 2 * legs.length := by
  induction legs generalizing n with
  | nil => simp [wpsFrom]
  | cons leg rest ih =>
    rw [wpsFrom]
    simp [legWaypoints, ih]
    ring

theorem wpsFrom_get (p1 p2 p3 p4 p5 : ℝ) (legs : List Leg) (n i : ℕ) (leg : Leg)
    (h : legs[i]? = some leg) :
    (wpsFrom p1 p2 p3 p4 p5 n legs)[2 * i]? =
      some { id := n + 2 * i + 1, type := "waypoint",
             latitude := p3 + leg.y_start_m * p1, longitude := p4 + leg.x_start_m * p2,
             altitude := p5, leg_id := leg.leg_id, position := "start" } ∧
    (wpsFrom p1 p2 p3 p4 p5 n legs)[2 * i + 1]? =
      some { id := n + 2 * i + 2, type := "waypoint",
             latitude := p3 + leg.y_end_m * p1, longitude := p4 + leg.x_end_m * p2,
             altitude := p5, leg_id := leg.leg_id, position := "end" } := by
  induction legs generalizing n i with
  | nil => simp at h
  | cons a rest ih =>
    cases i with
    | zero =>
      simp only [List.getElem?_cons_zero, Option.some.injEq] at h
      subst h
      simp [wpsFrom, legWaypoints]
    | succ i =>
      simp only [List.getElem?_cons_succ] at h
      obtain ⟨ih1, ih2⟩ := ih (n + 2) i h
      have e1 : 2 * (i + 1) = 2 * i + 1 + 1 := by ring
      have e2 : 2 * (i + 1) + 1 = (2 * i + 1) + 1 + 1 := by ring
      have f1 : n + 2 * (i + 1) + 1 = n + 2 + 2 * i + 1 := by ring
      have f2 : n + 2 * (i + 1) + 2 = n + 2 + 2 * i + 2 := by ring
      constructor
      · rw [wpsFrom, legWaypoints]
        simp only [List.cons_append, List.nil_append]
        rw [f1, e1, List.getElem?_cons_succ, List.getElem?_cons_succ]
        exact ih1
      · rw [wpsFrom, legWaypoints]
        simp only [List.cons_append, List.nil_append]
        rw [f2, e2, List.getElem?_cons_succ, List.getElem?_cons_succ]
        exact ih2

theorem tan_radians_ninety : Real.tan (radians 90 / 2) = 1 := by
  have h : radians 90 / 2 = Real.pi / 4 := by
    unfold radians
    ring
  rw [h, Real.tan_pi_div_four]

theorem roundTo_exact (d : ℕ) (x : ℝ) (z : ℤ) (h : x * 10 ^ d = (z : ℝ)) :
    roundTo d x = x := by
  unfold roundTo
  rw [h, round_intCast, ← h]
  field_simp

/-- A concrete mission used by several witnesses: a 240 m × 100 m field at
50 m altitude with a 90° field of view and 50 % sidelap, so the swath is
100 m, the sidelap spacing 50 m, and the planner picks 2 legs along the
length (a 480 m tie against 5 legs along the width, broken toward
`along_length`). -/
def testSpec : MissionSpec :=
  { area := some { length_m := some 240, width_m := some 100 },
    altitude_m := some 50, camera_fov_deg := some 90,
    overlap := some { frontlap_percent := some 75, sidelap_percent := some 50 } }

theorem computeCoverage_testSpec :
    computeCoverage testSpec 8 20 =
      { coverage_summary :=
          { sweep_direction := SweepDirection.along_length, swath_width_m := 100,
            leg_spacing_m := 100, num_legs := 2, leg_length_m := 240,
            total_path_length_m := 480, cruise_speed_mps := 8,
            total_flight_time_min := 1, num_battery_segments := 1 },
        legs := [{ leg_id := 1, x_start_m := 0, y_start_m := 0, x_end_m := 240,
                   y_end_m := 0 },
                 { leg_id := 2, x_start_m := 240, y_start_m := 100, x_end_m := 0,
                   y_end_m := 100 }] } := by
  unfold computeCoverage
  simp only [testSpec, specLength, specWidth, specAltitude, specFov, specSidelap,
    swathWidth, legSpacing, Option.getD_some, tan_radians_ninety]
  have hc : ⌈(24 : ℝ) / 5⌉ = (5 : ℤ) := by
    rw [Int.ceil_eq_iff]
    norm_num
  have hc2 : ⌈(1 : ℝ) / 20⌉ = (1 : ℤ) := by
    rw [Int.ceil_eq_iff]
    norm_num
  have r100 : roundTo 3 (100 : ℝ) = 100 := roundTo_exact 3 100 100000 (by norm_num)
  have r240 : roundTo 3 (240 : ℝ) = 240 := roundTo_exact 3 240 240000 (by norm_num)
  have r480 : roundTo 3 (480 : ℝ) = 480 := roundTo_exact 3 480 480000 (by norm_num)
  have rt1 : roundTo 2 (1 : ℝ) = 1 := roundTo_exact 2 1 100 (by norm_num)
  norm_num [hc, hc2, r100, r240, r480, rt1, roundTo_zero, List.range_succ]
  simp [List.range_succ, roundTo_zero, r100]

/-- C3: the planner evaluates both sweep orientations — legs along the length
with `num_legs = ceil(width_m / leg_spacing_m)` and legs along the width with
`num_legs = ceil(length_m / leg_spacing_m)` (each 1 if the spacing is not
positive) — forms each candidate path length `num_legs × leg_length`, and
selects the orientation with the smaller candidate path length, choosing
`along_length` on a tie. -/
theorem computeCoverage_orientation (s : MissionSpec) (cruise maxt : ℝ) :
    let sp := legSpacing (swathWidth (specAltitude s) (specFov s)) (specSidelap s)
    let num_legs_along_length : ℤ := if sp > 0 then ⌈specWidth s / sp⌉ else 1
    let num_legs_along_width : ℤ := if sp > 0 then ⌈specLength s / sp⌉ else 1
    let path_along_length : ℝ := (num_legs_along_length : ℝ) * specLength s
    let path_along_width : ℝ := (num_legs_along_width : ℝ) * specWidth s
    let r := computeCoverage s cruise maxt
    (path_along_length ≤ path_along_width ∧
      r.coverage_summary.sweep_direction = SweepDirection.along_length ∧
      r.coverage_summary.num_legs = num_legs_along_length ∧
      r.coverage_summary.leg_length_m = roundTo 3 (specLength s) ∧
      r.coverage_summary.total_path_length_m = roundTo 3 path_along_length) ∨
    (path_along_width < path_along_length ∧
      r.coverage_summary.sweep_direction = SweepDirection.along_width ∧
      r.coverage_summary.num_legs = num_legs_along_width ∧
      r.coverage_summary.leg_length_m = roundTo 3 (specWidth s) ∧
      r.coverage_summary.total_path_length_m = roundTo 3 path_along_width) := by
  simp only [computeCoverage]
  split_ifs with h1 h2 h2
  · exact Or.inl ⟨h2, rfl, rfl, rfl, rfl⟩
  · exact Or.inr ⟨lt_of_not_le h2, rfl, rfl, rfl, rfl⟩
  · exact Or.inl ⟨h2, rfl, rfl, rfl, rfl⟩
  · exact Or.inr ⟨lt_of_not_le h2, rfl, rfl, rfl, rfl⟩

/-- C2 (amended): by construction the planner's unrounded total path length is
`num_legs × leg_length` exactly — the reported `leg_length_m` is the 3-decimal
rounding of a leg length `L` and the reported `total_path_length_m` is the
3-decimal rounding of `num_legs × L` — but the rounded summary fields
themselves need not satisfy `total_path_length_m = num_legs × leg_length_m`
when `L` has more than three decimals. -/
theorem computeCoverage_total_by_construction (s : MissionSpec) (cruise maxt : ℝ) :
    ∃ L : ℝ,
      (computeCoverage s cruise maxt).coverage_summary.leg_length_m = roundTo 3 L ∧
      (computeCoverage s cruise maxt).coverage_summary.total_path_length_m =
        roundTo 3 (((computeCoverage s cruise maxt).coverage_summary.num_legs : ℝ) * L) := by
  simp only [computeCoverage]
  split_ifs with h1 h2 h2
  · exact ⟨specLength s, rfl, rfl⟩
  · exact ⟨specWidth s, rfl, rfl⟩
  · exact ⟨specLength s, rfl, rfl⟩
  · exact ⟨specWidth s, rfl, rfl⟩

/-- C9: for every valid flight configuration the summary reports
`total_flight_time_min = (total_path_length / cruise_speed) / 60` (rounded to
2 decimals) and `num_battery_segments = max(1, ceil(time / max_segment_time))`,
hence always at least 1; `total` here is the exact (unrounded) path length of
which the reported `total_path_length_m` is the 3-decimal rounding. -/
theorem computeCoverage_timing (s : MissionSpec) (cruise maxt : ℝ)
    (_hc : 0 < cruise) (_hm : 0 < maxt) :
    ∃ total : ℝ,
      (computeCoverage s cruise maxt).coverage_summary.total_path_length_m =
        roundTo 3 total ∧
      (computeCoverage s cruise maxt).coverage_summary.cruise_speed_mps = cruise ∧
      (computeCoverage s cruise maxt).coverage_summary.total_flight_time_min =
        roundTo 2 (total / cruise / 60) ∧
      (computeCoverage s cruise maxt).coverage_summary.num_battery_segments =
        max 1 ⌈total / cruise / 60 / maxt⌉ ∧
      1 ≤ (computeCoverage s cruise maxt).coverage_summary.num_battery_segments := by
  simp only [computeCoverage]
  split_ifs with h1 h2 h2
  all_goals exact ⟨_, rfl, trivial, rfl, rfl, le_max_left 1 _⟩

theorem ceil_spacing_lt (span sp : ℝ) (hsp : 0 < sp) (h : 1 < ⌈span / sp⌉) :
    sp < span / ((⌈span / sp⌉ : ℝ) - 1) := by
  have h1 : ((⌈span / sp⌉ : ℤ) : ℝ) < span / sp + 1 := Int.ceil_lt_add_one (span / sp)
  have h2 : (1 : ℝ) < ((⌈span / sp⌉ : ℤ) : ℝ) := by exact_mod_cast h
  have h3 : (0 : ℝ) < ((⌈span / sp⌉ : ℤ) : ℝ) - 1 := by linarith
  rw [lt_div_iff₀ h3]
  have h4 : span / sp * sp = span := div_mul_cancel₀ span hsp.ne'
  nlinarith

/-- C10: whenever the selected orientation has more than one leg, the
normalized spacing `field_span / (num_legs − 1)` is strictly greater than the
sidelap-derived spacing `swath_width × (1 − sidelap/100)`, so every multi-leg
plan spaces its legs wider than the requested sidelap permits. -/
theorem computeCoverage_spacing_exceeds (s : MissionSpec) (cruise maxt : ℝ)
    (h : 1 < (computeCoverage s cruise maxt).coverage_summary.num_legs) :
    legSpacing (swathWidth (specAltitude s) (specFov s)) (specSidelap s) <
      (if (computeCoverage s cruise maxt).coverage_summary.sweep_direction =
          SweepDirection.along_length then specWidth s else specLength s) /
        (((computeCoverage s cruise maxt).coverage_summary.num_legs : ℝ) - 1) := by
  by_cases h1 : legSpacing (swathWidth (specAltitude s) (specFov s)) (specSidelap s) > 0
  · by_cases h2 :
      ((⌈specWidth s /
          legSpacing (swathWidth (specAltitude s) (specFov s)) (specSidelap s)⌉ : ℤ) : ℝ) *
          specLength s ≤
        ((⌈specLength s /
          legSpacing (swathWidth (specAltitude s) (specFov s)) (specSidelap s)⌉ : ℤ) : ℝ) *
          specWidth s
    · simp only [computeCoverage, h1, h2, if_true] at h ⊢
      exact ceil_spacing_lt (specWidth s) _ h1 h
    · simp only [computeCoverage, h1, h2, if_true, if_false,
        eq_self_iff_true] at h ⊢
      exact ceil_spacing_lt (specLength s) _ h1 h
  · simp only [computeCoverage, h1, if_false, ite_self] at h
    exact absurd h (by norm_num)

/-- Witness for C10: the 240 m × 100 m test mission has 2 legs, and its
normalized spacing (100 m) exceeds the sidelap spacing (50 m). -/
theorem computeCoverage_spacing_exceeds_witness :
    legSpacing (swathWidth (specAltitude testSpec) (specFov testSpec))
        (specSidelap testSpec) <
      (if (computeCoverage testSpec 8 20).coverage_summary.sweep_direction =
          SweepDirection.along_length then specWidth testSpec
        else specLength testSpec) /
        (((computeCoverage testSpec 8 20).coverage_summary.num_legs : ℝ) - 1) :=
  computeCoverage_spacing_exceeds testSpec 8 20
    (by rw [computeCoverage_testSpec]; norm_num)

theorem range_map_get {α : Type} (f : ℕ → α) (m i : ℕ) (h : i < m) :
    ((List.range m).map f)[i]? = some (f i) := by
  rw [List.getElem?_map, List.getElem?_range h]
  rfl

/-- C6: after orientation selection the planner reports
`leg_spacing_m = field_span / (num_legs − 1)` when `num_legs > 1` (0 for a
single leg); leg `i` (0-based) carries `leg_id = i + 1` and sits at
across-track offset `i × leg_spacing_m`, running `0 → leg_length` on even `i`
and `leg_length → 0` on odd `i` (boustrophedon); the offsets rise
monotonically from 0 and reach the opposite span on the last leg. -/
theorem computeCoverage_legs_layout (s : MissionSpec) (cruise maxt : ℝ)
    (hl : 0 < specLength s) (hw : 0 < specWidth s) :
    let r := computeCoverage s cruise maxt
    let n := r.coverage_summary.num_legs
    let span := if r.coverage_summary.sweep_direction = SweepDirection.along_length
      then specWidth s else specLength s
    let legLen := if r.coverage_summary.sweep_direction = SweepDirection.along_length
      then specLength s else specWidth s
    let sp := if 1 < n then span / ((n : ℝ) - 1) else 0
    r.coverage_summary.leg_spacing_m = roundTo 3 sp ∧
    r.legs.length = n.toNat ∧
    (∀ i, i < r.legs.length → r.legs[i]? = some (
      if r.coverage_summary.sweep_direction = SweepDirection.along_length then
        if i % 2 = 0 then
          { leg_id := (i : ℤ) + 1, x_start_m := roundTo 3 0,
            y_start_m := roundTo 3 ((i : ℝ) * sp), x_end_m := roundTo 3 legLen,
            y_end_m := roundTo 3 ((i : ℝ) * sp) }
        else
          { leg_id := (i : ℤ) + 1, x_start_m := roundTo 3 legLen,
            y_start_m := roundTo 3 ((i : ℝ) * sp), x_end_m := roundTo 3 0,
            y_end_m := roundTo 3 ((i : ℝ) * sp) }
      else
        if i % 2 = 0 then
          { leg_id := (i : ℤ) + 1, x_start_m := roundTo 3 ((i : ℝ) * sp),
            y_start_m := roundTo 3 0, x_end_m := roundTo 3 ((i : ℝ) * sp),
            y_end_m := roundTo 3 legLen }
        else
          { leg_id := (i : ℤ) + 1, x_start_m := roundTo 3 ((i : ℝ) * sp),
            y_start_m := roundTo 3 legLen, x_end_m := roundTo 3 ((i : ℝ) * sp),
            y_end_m := roundTo 3 0 })) ∧
    (∀ i j : ℕ, i ≤ j → roundTo 3 ((i : ℝ) * sp) ≤ roundTo 3 ((j : ℝ) * sp)) ∧
    (1 < n → roundTo 3 (((n.toNat - 1 : ℕ) : ℝ) * sp) = roundTo 3 span) := by
  have main : ∀ (span : ℝ), 0 < span → ∀ n : ℤ,
      (∀ i j : ℕ, i ≤ j →
        roundTo 3 ((i : ℝ) * (if 1 < n then span / ((n : ℝ) - 1) else 0)) ≤
        roundTo 3 ((j : ℝ) * (if 1 < n then span / ((n : ℝ) - 1) else 0))) ∧
      (1 < n → roundTo 3 (((n.toNat - 1 : ℕ) : ℝ) *
        (if 1 < n then span / ((n : ℝ) - 1) else 0)) = roundTo 3 span) := by
    intro span hspan n
    by_cases hn : 1 < n
    · have hn1 : (0 : ℝ) < (n : ℝ) - 1 := by
        have : (1 : ℝ) < (n : ℝ) := by exact_mod_cast hn
        linarith
      have hsp : 0 ≤ span / ((n : ℝ) - 1) := le_of_lt (div_pos hspan hn1)
      constructor
      · intro i j hij
        rw [if_pos hn]
        exact roundTo_mono 3
          (mul_le_mul_of_nonneg_right (by exact_mod_cast hij) hsp)
      · intro _
        rw [if_pos hn]
        have hcast : ((n.toNat - 1 : ℕ) : ℝ) = (n : ℝ) - 1 := by
          have h1 : 1 ≤ n.toNat := by omega
          have h2 : ((n.toNat : ℕ) : ℝ) = (n : ℝ) := by
            exact_mod_cast congrArg (fun z : ℤ => (z : ℝ))
              (Int.toNat_of_nonneg (by omega))
          push_cast [Nat.cast_sub h1] at h2 ⊢
          linarith
        rw [hcast, mul_div_cancel₀ span hn1.ne']
    · constructor
      · intro i j hij
        rw [if_neg hn]
        simp
      · intro hcontra
        exact absurd hcontra hn
  by_cases hsel :
    ((if legSpacing (swathWidth (specAltitude s) (specFov s)) (specSidelap s) > 0
        then ⌈specWidth s /
          legSpacing (swathWidth (specAltitude s) (specFov s)) (specSidelap s)⌉
        else 1 : ℤ) : ℝ) * specLength s ≤
      ((if legSpacing (swathWidth (specAltitude s) (specFov s)) (specSidelap s) > 0
        then ⌈specLength s /
          legSpacing (swathWidth (specAltitude s) (specFov s)) (specSidelap s)⌉
        else 1 : ℤ) : ℝ) * specWidth s
  · simp only [computeCoverage, hsel, if_true]
    refine ⟨by trivial, by simp, ?_, (main _ hw _).1, (main _ hw _).2⟩
    intro i hi
    simp only [List.length_map, List.length_range] at hi
    rw [range_map_get _ _ _ hi]
  · simp only [computeCoverage, hsel, if_false]
    refine ⟨by trivial, by simp, ?_, (main _ hl _).1, (main _ hl _).2⟩
    intro i hi
    simp only [List.length_map, List.length_range] at hi
    rw [range_map_get _ _ _ hi]
    simp [gt_iff_lt]

/-- Witness for C9 at the concrete test mission with the source's default
cruise speed (8 m/s) and battery segment limit (20 min). -/
theorem computeCoverage_timing_witness :
    ∃ total : ℝ,
      (computeCoverage testSpec 8 20).coverage_summary.total_path_length_m =
        roundTo 3 total ∧
      (computeCoverage testSpec 8 20).coverage_summary.cruise_speed_mps = 8 ∧
      (computeCoverage testSpec 8 20).coverage_summary.total_flight_time_min =
        roundTo 2 (total / 8 / 60) ∧
      (computeCoverage testSpec 8 20).coverage_summary.num_battery_segments =
        max 1 ⌈total / 8 / 60 / 20⌉ ∧
      1 ≤ (computeCoverage testSpec 8 20).coverage_summary.num_battery_segments :=
  computeCoverage_timing testSpec 8 20 (by norm_num) (by norm_num)

/-- Witness for C6 at the concrete test mission: both field dimensions are
positive, so the layout theorem applies. -/
theorem computeCoverage_legs_layout_witness :
    let r := computeCoverage testSpec 8 20
    let n := r.coverage_summary.num_legs
    let span := if r.coverage_summary.sweep_direction = SweepDirection.along_length
      then specWidth testSpec else specLength testSpec
    let legLen := if r.coverage_summary.sweep_direction = SweepDirection.along_length
      then specLength testSpec else specWidth testSpec
    let sp := if 1 < n then span / ((n : ℝ) - 1) else 0
    r.coverage_summary.leg_spacing_m = roundTo 3 sp ∧
    r.legs.length = n.toNat ∧
    (∀ i, i < r.legs.length → r.legs[i]? = some (
      if r.coverage_summary.sweep_direction = SweepDirection.along_length then
        if i % 2 = 0 then
          { leg_id := (i : ℤ) + 1, x_start_m := roundTo 3 0,
            y_start_m := roundTo 3 ((i : ℝ) * sp), x_end_m := roundTo 3 legLen,
            y_end_m := roundTo 3 ((i : ℝ) * sp) }
        else
          { leg_id := (i : ℤ) + 1, x_start_m := roundTo 3 legLen,
            y_start_m := roundTo 3 ((i : ℝ) * sp), x_end_m := roundTo 3 0,
            y_end_m := roundTo 3 ((i : ℝ) * sp) }
      else
        if i % 2 = 0 then
          { leg_id := (i : ℤ) + 1, x_start_m := roundTo 3 ((i : ℝ) * sp),
            y_start_m := roundTo 3 0, x_end_m := roundTo 3 ((i : ℝ) * sp),
            y_end_m := roundTo 3 legLen }
        else
          { leg_id := (i : ℤ) + 1, x_start_m := roundTo 3 ((i : ℝ) * sp),
            y_start_m := roundTo 3 legLen, x_end_m := roundTo 3 ((i : ℝ) * sp),
            y_end_m := roundTo 3 0 })) ∧
    (∀ i j : ℕ, i ≤ j → roundTo 3 ((i : ℝ) * sp) ≤ roundTo 3 ((j : ℝ) * sp)) ∧
    (1 < n → roundTo 3 (((n.toNat - 1 : ℕ) : ℝ) * sp) = roundTo 3 span) :=
  computeCoverage_legs_layout testSpec 8 20
    (by norm_num [specLength, testSpec]) (by norm_num [specWidth, testSpec])

/-- C8: the planner's reported swath width is the 3-decimal rounding of
`2 × altitude_m × tan(fov_in_radians / 2)`, and with `sidelap_percent = 0` the
pre-normalization leg spacing `swath × (1 − sidelap/100)` equals the swath
width itself. -/
theorem computeCoverage_swath (s : MissionSpec) (cruise maxt : ℝ) :
    (computeCoverage s cruise maxt).coverage_summary.swath_width_m =
      roundTo 3 (2 * specAltitude s * Real.tan (radians (specFov s) / 2)) ∧
    legSpacing (2 * specAltitude s * Real.tan (radians (specFov s) / 2)) 0 =
      2 * specAltitude s * Real.tan (radians (specFov s) / 2) := by
  constructor
  · simp only [computeCoverage, swathWidth]
  · simp [legSpacing]

/-- A degenerate rectangle: 100 m long but 0 m wide (all other parameters
valid). -/
def degenSpec : MissionSpec :=
  { area := some { length_m := some 100, width_m := some 0 },
    altitude_m := some 50, camera_fov_deg := some 90,
    overlap := some { frontlap_percent := some 75, sidelap_percent := some 50 } }

/-- C1 (code behaviour at the failing input): on the degenerate rectangle the
planner returns normally — no validation failure of any kind exists in the
source — with a plan of `num_legs = 0`, an empty leg list and a zero total
path length. -/
theorem computeCoverage_degenerate_width :
    (computeCoverage degenSpec 8 20).coverage_summary.num_legs = 0 ∧
    (computeCoverage degenSpec 8 20).legs = [] ∧
    (computeCoverage degenSpec 8 20).coverage_summary.total_path_length_m = 0 := by
  unfold computeCoverage
  simp only [degenSpec, specLength, specWidth, specAltitude, specFov, specSidelap,
    swathWidth, legSpacing, Option.getD_some, tan_radians_ninety]
  norm_num [roundTo_zero]

/-- A mission with `altitude_m = 0`, which §8 of the specification says must
raise `InvalidParameterError`. -/
def altZeroSpec : MissionSpec :=
  { area := some { length_m := some 100, width_m := some 50 },
    altitude_m := some 0, camera_fov_deg := some 90,
    overlap := some { frontlap_percent := some 75, sidelap_percent := some 50 } }

/-- A mission with no `altitude_m` key at all; the source silently substitutes
the default 50.0. -/
def noAltSpec : MissionSpec :=
  { area := some { length_m := some 80, width_m := some 60 },
    altitude_m := none, camera_fov_deg := some 90,
    overlap := some { frontlap_percent := none, sidelap_percent := some 50 } }

/-- C4 (code behaviour at the failing inputs): `altitude_m = 0` raises
nothing — the planner returns a normal single-leg plan with a zero swath —
and an absent `altitude_m` is silently coerced to the default 50, giving a
100 m swath at a 90° field of view. -/
theorem computeCoverage_no_validation :
    (computeCoverage altZeroSpec 8 20).coverage_summary.num_legs = 1 ∧
    (computeCoverage altZeroSpec 8 20).coverage_summary.swath_width_m = 0 ∧
    (computeCoverage noAltSpec 8 20).coverage_summary.swath_width_m = 100 := by
  refine ⟨?_, ?_, ?_⟩
  · unfold computeCoverage
    simp only [altZeroSpec, specLength, specWidth, specAltitude, specFov, specSidelap,
      swathWidth, legSpacing, Option.getD_some]
    norm_num
  · unfold computeCoverage
    simp only [altZeroSpec, specLength, specWidth, specAltitude, specFov, specSidelap,
      swathWidth, legSpacing, Option.getD_some]
    norm_num [roundTo_zero]
  · unfold computeCoverage
    simp only [noAltSpec, specLength, specWidth, specAltitude, specFov, specSidelap,
      swathWidth, legSpacing, Option.getD_some, Option.getD_none, tan_radians_ninety]
    have r100 : roundTo 3 (100 : ℝ) = 100 := roundTo_exact 3 100 100000 (by norm_num)
    norm_num [r100]

/-- A mission whose leg length (10.0004 m) has more than three decimals, so
the rounded summary fields cannot satisfy the product equation exactly. -/
def c2Spec : MissionSpec :=
  { area := some { length_m := some 10.0004, width_m := some 100 },
    altitude_m := some 50, camera_fov_deg := some 90,
    overlap := some { frontlap_percent := some 75, sidelap_percent := some 50 } }

/-- Counterexample for C2: on `c2Spec` the planner reports
`total_path_length_m = 20.001` (rounding of 2 × 10.0004) but
`num_legs × leg_length_m = 2 × 10.0 = 20.0`, so the rounded summary fields do
not satisfy `total_path_length_m = num_legs × leg_length_m`. -/
theorem computeCoverage_rounded_total_ne :
    ¬ ((computeCoverage c2Spec 8 20).coverage_summary.total_path_length_m =
        ((computeCoverage c2Spec 8 20).coverage_summary.num_legs : ℝ) *
          (computeCoverage c2Spec 8 20).coverage_summary.leg_length_m) := by
  unfold computeCoverage
  simp only [c2Spec, specLength, specWidth, specAltitude, specFov, specSidelap,
    swathWidth, legSpacing, Option.getD_some, tan_radians_ninety]
  have hcB : ⌈(25001 : ℝ) / 125000⌉ = 1 := by
    rw [Int.ceil_eq_iff]
    norm_num
  have rT : roundTo 3 ((25001 : ℝ) / 1250) = 20001 / 1000 := by
    rw [roundTo_eq 3 ((25001 : ℝ) / 1250) 20001 (by norm_num) (by norm_num)]
    norm_num
  have rL : roundTo 3 ((25001 : ℝ) / 2500) = 10 := by
    rw [roundTo_eq 3 ((25001 : ℝ) / 2500) 10000 (by norm_num) (by norm_num)]
    norm_num
  norm_num [hcB, rT, rL]

/-- C7: for every coverage plan and every nonzero origin latitude, the
Geodetic Projector returns exactly `2 × num_legs` waypoints, in leg order with
each leg's start waypoint immediately before its end waypoint, ids assigned
sequentially from 1 across the whole sequence, latitude
`origin_lat + y_m / 111320` and longitude
`origin_lon + x_m / (111320 × |origin_lat / 90|)`. -/
theorem generate_ros_waypoints_spec (plan : CoverageResult) (spec : MissionSpec)
    (origin_lat origin_lon : ℝ) (h : origin_lat ≠ 0) :
    ∃ ws : List Waypoint,
      generate_ros_waypoints plan spec origin_lat origin_lon = Except.ok ws ∧
      ws.length = 2 * plan.legs.length ∧
      ∀ i leg, plan.legs[i]? = some leg →
        ws[2 * i]? =
          some { id := 2 * i + 1, type := "waypoint",
                 latitude := origin_lat + leg.y_start_m / 111320,
                 longitude := origin_lon + leg.x_start_m / (111320 * |origin_lat / 90|),
                 altitude := spec.altitude_m.getD 50, leg_id := leg.leg_id,
                 position := "start" } ∧
        ws[2 * i + 1]? =
          some { id := 2 * i + 2, type := "waypoint",
                 latitude := origin_lat + leg.y_end_m / 111320,
                 longitude := origin_lon + leg.x_end_m / (111320 * |origin_lat / 90|),
                 altitude := spec.altitude_m.getD 50, leg_id := leg.leg_id,
                 position := "end" } := by
  have hd : ¬(111320 * |origin_lat / 90| = 0) := by
    intro hc
    rcases mul_eq_zero.mp hc with h1 | h2
    · norm_num at h1
    · exact h (by simpa [div_eq_zero_iff] using abs_eq_zero.mp h2)
  refine ⟨rosLoop (1 / 111320) (1 / (111320 * |origin_lat / 90|)) origin_lat origin_lon
      (spec.altitude_m.getD 50) plan.legs [], ?_, ?_, ?_⟩
  · simp only [generate_ros_waypoints]
    rw [if_neg hd]
  · rw [rosLoop_eq]
    simp [wpsFrom_length]
  · intro i leg hleg
    obtain ⟨g1, g2⟩ := wpsFrom_get (1 / 111320) (1 / (111320 * |origin_lat / 90|))
      origin_lat origin_lon (spec.altitude_m.getD 50) plan.legs 0 i leg hleg
    rw [rosLoop_eq]
    simp only [List.nil_append, List.length_nil] at g1 g2 ⊢
    simp only [Nat.zero_add, mul_one_div] at g1 g2
    exact ⟨g1, g2⟩

/-- Witness for C7 at a concrete one-leg plan and the default Delhi origin. -/
theorem generate_ros_waypoints_spec_witness :
    ∃ ws : List Waypoint,
      generate_ros_waypoints
          { coverage_summary :=
              { sweep_direction := SweepDirection.along_length, swath_width_m := 100,
                leg_spacing_m := 0, num_legs := 1, leg_length_m := 100,
                total_path_length_m := 100, cruise_speed_mps := 8,
                total_flight_time_min := 0.21, num_battery_segments := 1 },
            legs := [{ leg_id := 1, x_start_m := 0, y_start_m := 0, x_end_m := 100,
                       y_end_m := 0 }] }
          { area := some { length_m := some 100, width_m := some 30 },
            altitude_m := some 50, camera_fov_deg := some 90,
            overlap := some { frontlap_percent := some 75, sidelap_percent := some 65 } }
          28.6139 77.209 = Except.ok ws ∧
      ws.length = 2 * 1 ∧
      ∀ i leg,
        [({ leg_id := 1, x_start_m := 0, y_start_m := 0, x_end_m := 100,
            y_end_m := 0 } : Leg)][i]? = some leg →
        ws[2 * i]? =
          some { id := 2 * i + 1, type := "waypoint",
                 latitude := 28.6139 + leg.y_start_m / 111320,
                 longitude := 77.209 + leg.x_start_m / (111320 * |(28.6139 : ℝ) / 90|),
                 altitude := 50, leg_id := leg.leg_id, position := "start" } ∧
        ws[2 * i + 1]? =
          some { id := 2 * i + 2, type := "waypoint",
                 latitude := 28.6139 + leg.y_end_m / 111320,
                 longitude := 77.209 + leg.x_end_m / (111320 * |(28.6139 : ℝ) / 90|),
                 altitude := 50, leg_id := leg.leg_id, position := "end" } := by
  simpa using generate_ros_waypoints_spec
    { coverage_summary :=
        { sweep_direction := SweepDirection.along_length, swath_width_m := 100,
          leg_spacing_m := 0, num_legs := 1, leg_length_m := 100,
          total_path_length_m := 100, cruise_speed_mps := 8,
          total_flight_time_min := 0.21, num_battery_segments := 1 },
      legs := [{ leg_id := 1, x_start_m := 0, y_start_m := 0, x_end_m := 100,
                 y_end_m := 0 }] }
    { area := some { length_m := some 100, width_m := some 30 },
      altitude_m := some 50, camera_fov_deg := some 90,
      overlap := some { frontlap_percent := some 75, sidelap_percent := some 65 } }
    28.6139 77.209 (by norm_num)

/-- C5 (code behaviour at the failing input): with `origin_lat = 0` the
projector hits `1.0 / (111320.0 * abs(0 / 90))`, a division by zero, so the
call fails with Python's untyped `ZeroDivisionError` instead of raising a
typed `InvalidParameterError` from an explicit guard (no such guard, and no
`InvalidParameterError`, exists anywhere in the source). -/
theorem generate_ros_waypoints_zero_lat :
    generate_ros_waypoints
        { coverage_summary :=
            { sweep_direction := SweepDirection.along_length, swath_width_m := 100,
              leg_spacing_m := 0, num_legs := 1, leg_length_m := 100,
              total_path_length_m := 100, cruise_speed_mps := 8,
              total_flight_time_min := 0.21, num_battery_segments := 1 },
          legs := [{ leg_id := 1, x_start_m := 0, y_start_m := 0, x_end_m := 100,
                     y_end_m := 0 }] }
        { area := some { length_m := some 100, width_m := some 30 },
          altitude_m := some 50, camera_fov_deg := some 90,
          overlap := some { frontlap_percent := some 75, sidelap_percent := some 65 } }
        0 77.209 = Except.error PyError.zeroDivisionError := by
  simp [generate_ros_waypoints]

end Icarus
